import Mathlib

/-!
Verification of the plugin resolution orchestrator in
`crates/dprint/src/plugins/implementations/public.rs`.

The orchestrator is embedded shallowly: the external collaborators
(the plugin cache, the environment, and the two backends) are modelled
as an oracle (`SysState`) scripting the outcome of each call, indexed
by how many calls of that kind happened before.  Every externally
observable action is recorded in an event trace, so that claims about
call counts, ordering and frame effects become statements about the
trace.
-/

namespace Dprint

/-- Modelled from the spec: the execution-kind classification of a plugin
reference (`crate::utils::PluginKind`, declared outside the given source).
The source matches on exactly the two variants `Wasm` and `Process`. -/
inductive PluginKind
  | Wasm
  | Process
deriving DecidableEq

/-- Modelled from the spec: plugin metadata (`dprint_core::plugins::PluginInfo`),
opaque to this core beyond being attached to the eventual plugin instance. -/
structure PluginInfo where
  name : String
deriving DecidableEq

/-- Modelled from the spec: a Source Reference locator
(`crate::utils::PathSource`, declared outside the given source) together
with its derived execution kind.  The kind is a pure function of the
locator, so we record its value as a field. -/
structure PathSource where
  locator : String
  kind : Option PluginKind
deriving DecidableEq

/-- Modelled from the spec: `PathSource::plugin_kind`, the pure kind
classification. -/
def PathSource.plugin_kind (p : PathSource) : Option PluginKind := p.kind

/-- Modelled from the spec: `PathSource::display`, showing the locator. -/
def PathSource.display (p : PathSource) : String := p.locator

/-- Modelled from the spec: `crate::plugins::PluginSourceReference`,
a wrapper around a `PathSource` (declared outside the given source). -/
structure PluginSourceReference where
  path_source : PathSource
deriving DecidableEq

def PluginSourceReference.plugin_kind (r : PluginSourceReference) : Option PluginKind :=
  r.path_source.plugin_kind

def PluginSourceReference.display (r : PluginSourceReference) : String :=
  r.path_source.display

/-- Modelled from the spec: a Cache Item (`PluginCacheItem`), the value
returned by the Cache Store: a local artifact path plus metadata. -/
structure PluginCacheItem where
  file_path : String
  info : PluginInfo
deriving DecidableEq

/-- The result of `setup_plugin` (struct `SetupPluginResult` in the source). -/
structure SetupPluginResult where
  file_path : String
  plugin_info : PluginInfo
deriving DecidableEq

/-- The polymorphic Plugin Instance: `wasm::WasmPlugin` or
`process::ProcessPlugin` behind `Box<dyn Plugin>`.  The backend-specific
resources are abstracted to the data the orchestrator hands over. -/
inductive Plugin
  | Wasm (bytes : List Nat) (info : PluginInfo)
  | Process (executable_path : String) (info : PluginInfo)
deriving DecidableEq

/-- Externally observable actions of the orchestrator, in order. -/
inductive Event
  | lookup
  | forget
  | readBytes (path : String)
  | pathProbe (path : String)
  | logVerbose (msg : String)
  | wasmNew
  | processNew (path : String)
deriving DecidableEq

/-- Oracle scripting the outcome of every collaborator call.  Fallible
calls are indexed by the number of prior calls of the same kind inside
one operation, so a script describes an arbitrary injected failure
sequence. -/
structure SysState where
  /-- `PluginCache::get_plugin_cache_item`, by lookup index. -/
  lookupResults : Nat → Except String PluginCacheItem
  /-- `PluginCache::forget`, by forget index. -/
  forgetResults : Nat → Except String Unit
  /-- `Environment::read_file_bytes`, by read index. -/
  readResults : Nat → Except String (List Nat)
  /-- `Environment::path_exists`, by probe index. -/
  probeResults : Nat → Bool
  /-- `wasm::WasmPlugin::new` can fail; the constructed instance itself is
  determined by the orchestrator (bytes and info it passes). -/
  wasmNewResult : List Nat → PluginInfo → Except String Unit
  /-- Modelled from the spec: `process::get_test_safe_executable_path`
  (declared outside the given source), a pure path substitution. -/
  test_safe_executable_path : String → String
  /-- Modelled from the spec: `wasm::get_file_path_from_plugin_info`
  (declared outside the given source), a pure path derivation. -/
  wasm_derive_path : PluginInfo → String
  /-- Modelled from the spec: `process::get_file_path_from_plugin_info`
  (declared outside the given source), a pure path derivation. -/
  process_derive_path : PluginInfo → String
  /-- Modelled from the spec: `wasm::setup_wasm_plugin` (declared outside
  the given source); surfaces any write or validation error unchanged. -/
  setup_wasm : List Nat → Except String SetupPluginResult
  /-- Modelled from the spec: `process::setup_process_plugin` (declared
  outside the given source); surfaces errors unchanged. -/
  setup_process : List Nat → Except String SetupPluginResult

/-- The error message produced at every unresolvable-kind dispatch point
in the source. -/
def unresolvable_message (locator : String) : String :=
  "Could not resolve plugin type from url or file path: " ++ locator

/-- The verbose diagnostic before the stage-1 (cache lookup) retry. -/
def cache_retry_message (err : String) : String :=
  "Error getting plugin from cache. Forgetting from cache and retrying. Message: " ++ err

/-- The verbose diagnostic before the sandboxed (byte read) retry. -/
def read_retry_message (err : String) : String :=
  "Error reading plugin file bytes. Forgetting from cache and retrying. Message: " ++ err

/-- The verbose diagnostic before the native (existence probe) retry. -/
def probe_retry_message (path : String) : String :=
  "Could not find process plugin at " ++ path ++ ". Forgetting from cache and retrying."

/-- `setup_plugin` from the source: dispatch on the plugin kind. -/
def setup_plugin (sys : SysState) (url_or_file_path : PathSource) (file_bytes : List Nat) :
    Except String SetupPluginResult :=
  match url_or_file_path.plugin_kind with
  | some PluginKind.Wasm => sys.setup_wasm file_bytes
  | some PluginKind.Process => sys.setup_process file_bytes
  | none => Except.error (unresolvable_message url_or_file_path.display)

/-- `get_file_path_from_plugin_info` from the source: dispatch on the
plugin kind to the pure backend path derivations. -/
def get_file_path_from_plugin_info (sys : SysState) (url_or_file_path : PathSource)
    (plugin_info : PluginInfo) : Except String String :=
  match url_or_file_path.plugin_kind with
  | some PluginKind.Wasm => Except.ok (sys.wasm_derive_path plugin_info)
  | some PluginKind.Process => Except.ok (sys.process_derive_path plugin_info)
  | none => Except.error (unresolvable_message url_or_file_path.display)

/-- Modelled from the spec: the backend delete operation used by
`wasm::cleanup_wasm_plugin` and `process::cleanup_process_plugin`
(declared outside the given source).  It removes the artifact at the
given path from the filesystem; deleting an already-absent artifact is
not an error. -/
def delete_artifact (fs : List String) (path : String) : Except String Unit × List String :=
  (Except.ok (), fs.filter (fun q => q ≠ path))

/-- `cleanup_plugin` from the source: dispatch on the plugin kind to the
backend delete, threading an explicit filesystem (set of paths). -/
def cleanup_plugin (sys : SysState) (fs : List String) (url_or_file_path : PathSource)
    (plugin_info : PluginInfo) : Except String Unit × List String :=
  match url_or_file_path.plugin_kind with
  | some PluginKind.Wasm => delete_artifact fs (sys.wasm_derive_path plugin_info)
  | some PluginKind.Process => delete_artifact fs (sys.process_derive_path plugin_info)
  | none => (Except.error (unresolvable_message url_or_file_path.display), fs)

/-- `wasm::WasmPlugin::new(&file_bytes, info, ...)?`: may fail; on success
the instance is the sandboxed variant over exactly the bytes and info the
orchestrator passed. -/
def mkWasmPlugin (sys : SysState) (file_bytes : List Nat) (info : PluginInfo) :
    Except String Plugin :=
  match sys.wasmNewResult file_bytes info with
  | Except.ok _ => Except.ok (Plugin.Wasm file_bytes info)
  | Except.error e => Except.error e

/-- Stage 2 of `create_plugin` (lines 84-130 of the source): kind-specific
artifact validation and instance construction, given the cache item from
stage 1.  `nLookup` and `nForget` are the numbers of lookup and forget
calls already performed in stage 1, used to index the oracle.  Returns
the result together with the events of this stage.

In the sandboxed retry branch the repopulated item is read, but the
instance is built from the OUTER item metadata: in the source the inner
`let cache_item` rebinding is scoped to the `Err` arm, so line 102 uses
the original binding. -/
def createWithItem (sys : SysState) (plugin_reference : PluginSourceReference)
    (cache_item : PluginCacheItem) (nLookup nForget : Nat) :
    Except String Plugin × List Event :=
  match plugin_reference.plugin_kind with
  | some PluginKind.Wasm =>
    match sys.readResults 0 with
    | Except.ok file_bytes =>
      (mkWasmPlugin sys file_bytes cache_item.info,
       [Event.readBytes cache_item.file_path, Event.wasmNew])
    | Except.error err =>
      match sys.forgetResults nForget with
      | Except.error ferr =>
        (Except.error ferr,
         [Event.readBytes cache_item.file_path,
          Event.logVerbose (read_retry_message err), Event.forget])
      | Except.ok _ =>
        match sys.lookupResults nLookup with
        | Except.error lerr =>
          (Except.error lerr,
           [Event.readBytes cache_item.file_path,
            Event.logVerbose (read_retry_message err), Event.forget, Event.lookup])
        | Except.ok cache_item2 =>
          match sys.readResults 1 with
          | Except.error rerr =>
            (Except.error rerr,
             [Event.readBytes cache_item.file_path,
              Event.logVerbose (read_retry_message err), Event.forget, Event.lookup,
              Event.readBytes cache_item2.file_path])
          | Except.ok file_bytes =>
            (mkWasmPlugin sys file_bytes cache_item.info,
             [Event.readBytes cache_item.file_path,
              Event.logVerbose (read_retry_message err), Event.forget, Event.lookup,
              Event.readBytes cache_item2.file_path, Event.wasmNew])
  | some PluginKind.Process =>
    if sys.probeResults 0 then
      (Except.ok (Plugin.Process (sys.test_safe_executable_path cache_item.file_path)
          cache_item.info),
       [Event.pathProbe cache_item.file_path,
        Event.processNew (sys.test_safe_executable_path cache_item.file_path)])
    else
      match sys.forgetResults nForget with
      | Except.error ferr =>
        (Except.error ferr,
         [Event.pathProbe cache_item.file_path,
          Event.logVerbose (probe_retry_message cache_item.file_path), Event.forget])
      | Except.ok _ =>
        match sys.lookupResults nLookup with
        | Except.error lerr =>
          (Except.error lerr,
           [Event.pathProbe cache_item.file_path,
            Event.logVerbose (probe_retry_message cache_item.file_path), Event.forget,
            Event.lookup])
        | Except.ok cache_item2 =>
          (Except.ok (Plugin.Process (sys.test_safe_executable_path cache_item2.file_path)
              cache_item2.info),
           [Event.pathProbe cache_item.file_path,
            Event.logVerbose (probe_retry_message cache_item.file_path), Event.forget,
            Event.lookup,
            Event.processNew (sys.test_safe_executable_path cache_item2.file_path)])
  | none =>
    (Except.error (unresolvable_message plugin_reference.display), [])

/-- `create_plugin` from the source.  Stage 1 (lines 68-82): cache lookup
with a single forget-and-retry; then stage 2 dispatches on the kind.
Returns the result together with the full event trace. -/
def create_plugin (sys : SysState) (plugin_reference : PluginSourceReference) :
    Except String Plugin × List Event :=
  match sys.lookupResults 0 with
  | Except.ok cache_item =>
    let step2 := createWithItem sys plugin_reference cache_item 1 0
    (step2.1, Event.lookup :: step2.2)
  | Except.error err =>
    match sys.forgetResults 0 with
    | Except.error ferr =>
      (Except.error ferr,
       [Event.lookup, Event.logVerbose (cache_retry_message err), Event.forget])
    | Except.ok _ =>
      match sys.lookupResults 1 with
      | Except.error err2 =>
        (Except.error err2,
         [Event.lookup, Event.logVerbose (cache_retry_message err), Event.forget,
          Event.lookup])
      | Except.ok cache_item =>
        let step2 := createWithItem sys plugin_reference cache_item 2 1
        (step2.1,
         Event.lookup :: Event.logVerbose (cache_retry_message err) :: Event.forget ::
           Event.lookup :: step2.2)

/-! ### Trace observations -/

/-- Number of Cache Store lookup calls in a trace. -/
def countLookups : List Event → Nat
  | [] => 0
  | Event.lookup :: rest => countLookups rest + 1
  | _ :: rest => countLookups rest

/-- Number of Cache Store forget calls in a trace. -/
def countForgets : List Event → Nat
  | [] => 0
  | Event.forget :: rest => countForgets rest + 1
  | _ :: rest => countForgets rest

/-- Number of file byte reads in a trace. -/
def countReads : List Event → Nat
  | [] => 0
  | Event.readBytes _ :: rest => countReads rest + 1
  | _ :: rest => countReads rest

/-- Number of existence probes in a trace. -/
def countProbes : List Event → Nat
  | [] => 0
  | Event.pathProbe _ :: rest => countProbes rest + 1
  | _ :: rest => countProbes rest

/-- `forgetsLogged tr` holds when every forget call in the trace is
immediately preceded by a verbose diagnostic log message. -/
def forgetsLogged : List Event → Bool
  | Event.logVerbose _ :: Event.forget :: rest => forgetsLogged rest
  | Event.forget :: _ => false
  | _ :: rest => forgetsLogged rest
  | [] => true

/-! ### Concrete fixtures used by witnesses and counterexamples -/

def infoA : PluginInfo := { name := "test-plugin" }

def itemA : PluginCacheItem := { file_path := "cache/plugin.wasm", info := infoA }

def refWasm : PluginSourceReference :=
  { path_source := { locator := "https://plugins/plugin.wasm", kind := some PluginKind.Wasm } }

def refProc : PluginSourceReference :=
  { path_source := { locator := "https://plugins/plugin.exe-plugin", kind := some PluginKind.Process } }

def refNone : PluginSourceReference :=
  { path_source := { locator := "https://plugins/plugin.unknown", kind := none } }

/-- A fully healthy oracle: every collaborator call succeeds. -/
def sysHappy : SysState where
  lookupResults := fun _ => Except.ok itemA
  forgetResults := fun _ => Except.ok ()
  readResults := fun _ => Except.ok [0, 97, 115, 109]
  probeResults := fun _ => true
  wasmNewResult := fun _ _ => Except.ok ()
  test_safe_executable_path := fun p => p
  wasm_derive_path := fun i => "cache/" ++ i.name ++ ".wasm"
  process_derive_path := fun i => "cache/" ++ i.name ++ ".exe-plugin"
  setup_wasm := fun _ => Except.ok { file_path := "cache/plugin.wasm", plugin_info := infoA }
  setup_process := fun _ =>
    Except.ok { file_path := "cache/plugin.exe-plugin", plugin_info := infoA }

/-- Every cache lookup fails. -/
def sysLookupFail : SysState :=
  { sysHappy with lookupResults := fun _ => Except.error "cache corrupt" }

/-- The native artifact is missing on disk (existence probe fails);
everything else healthy. -/
def sysProbeFail : SysState :=
  { sysHappy with probeResults := fun _ => false }

/-- The sandboxed artifact was deleted out-of-band: the first byte read
fails, the one after repopulation succeeds. -/
def sysWasmHeal : SysState :=
  { sysHappy with
      readResults := fun n => match n with
        | 0 => Except.error "file not found"
        | _ => Except.ok [0, 97] }

/-- Both the cache lookup and the subsequent forget fail. -/
def sysForgetFail : SysState :=
  { sysLookupFail with forgetResults := fun _ => Except.error "forget failed" }

/-! ### Helper lemmas about stage 2 -/

lemma createWithItem_forgetsLogged (sys : SysState) (ref : PluginSourceReference)
    (item : PluginCacheItem) (nL nF : Nat) :
    forgetsLogged (createWithItem sys ref item nL nF).2 = true := by
  rcases hk : ref.plugin_kind with _ | k
  · simp [createWithItem, hk, forgetsLogged]
  · rcases hr0 : sys.readResults 0 with e0 | b0 <;>
      rcases hr1 : sys.readResults 1 with e1 | b1 <;>
      rcases hf : sys.forgetResults nF with ef | uf <;>
      rcases hl : sys.lookupResults nL with el | il <;>
      cases hp : sys.probeResults 0 <;>
      cases k <;>
      simp [createWithItem, hk, hr0, hr1, hf, hl, hp, forgetsLogged]

lemma createWithItem_counts (sys : SysState) (ref : PluginSourceReference)
    (item : PluginCacheItem) (nL nF : Nat) :
    countLookups (createWithItem sys ref item nL nF).2 ≤ 1 ∧
    countReads (createWithItem sys ref item nL nF).2 ≤ 2 ∧
    countProbes (createWithItem sys ref item nL nF).2 ≤ 1 ∧
    countForgets (createWithItem sys ref item nL nF).2 ≤ 1 := by
  rcases hk : ref.plugin_kind with _ | k
  · simp [createWithItem, hk, countLookups, countReads, countProbes, countForgets]
  · rcases hr0 : sys.readResults 0 with e0 | b0 <;>
      rcases hr1 : sys.readResults 1 with e1 | b1 <;>
      rcases hf : sys.forgetResults nF with ef | uf <;>
      rcases hl : sys.lookupResults nL with el | il <;>
      cases hp : sys.probeResults 0 <;>
      cases k <;>
      simp [createWithItem, hk, hr0, hr1, hf, hl, hp,
        countLookups, countReads, countProbes, countForgets]

/-! ### Claim theorems -/

/-- Claim C9: in every execution of `create_plugin`, each forget call is
immediately preceded by a verbose diagnostic log message; no retry ever
happens without the diagnostic being emitted first. -/
theorem create_plugin_retry_logged_before_forget (sys : SysState)
    (ref : PluginSourceReference) :
    forgetsLogged (create_plugin sys ref).2 = true := by
  rcases h0 : sys.lookupResults 0 with e0 | item0
  · rcases hf : sys.forgetResults 0 with ef | uf
    · simp [create_plugin, h0, hf, forgetsLogged]
    · rcases h1 : sys.lookupResults 1 with e1 | item1
      · simp [create_plugin, h0, hf, h1, forgetsLogged]
      · simpa [create_plugin, h0, hf, h1, forgetsLogged] using
          createWithItem_forgetsLogged sys ref item1 2 1
  · simpa [create_plugin, h0, forgetsLogged] using
      createWithItem_forgetsLogged sys ref item0 1 0

/-- Claim C1: each validation point of `create_plugin` (cache lookup,
sandboxed byte read, native existence probe) retries at most once: the
trace never holds more than 3 lookups, 2 reads, 1 probe, 2 forgets; two
consecutive failures of the stage-1 lookup make `create_plugin` fail
after exactly 2 lookup attempts; two consecutive failures of the
sandboxed byte read make it fail after exactly 2 read attempts. -/
theorem create_plugin_single_retry_bound (sys : SysState)
    (ref : PluginSourceReference) :
    (countLookups (create_plugin sys ref).2 ≤ 3 ∧
     countReads (create_plugin sys ref).2 ≤ 2 ∧
     countProbes (create_plugin sys ref).2 ≤ 1 ∧
     countForgets (create_plugin sys ref).2 ≤ 2) ∧
    (∀ e1 e2, sys.lookupResults 0 = Except.error e1 →
      sys.forgetResults 0 = Except.ok () →
      sys.lookupResults 1 = Except.error e2 →
      (create_plugin sys ref).1 = Except.error e2 ∧
        countLookups (create_plugin sys ref).2 = 2) ∧
    (∀ item e1 item2 e2, ref.plugin_kind = some PluginKind.Wasm →
      sys.lookupResults 0 = Except.ok item →
      sys.readResults 0 = Except.error e1 →
      sys.forgetResults 0 = Except.ok () →
      sys.lookupResults 1 = Except.ok item2 →
      sys.readResults 1 = Except.error e2 →
      (create_plugin sys ref).1 = Except.error e2 ∧
        countReads (create_plugin sys ref).2 = 2) := by
  refine ⟨?_, ?_, ?_⟩
  · rcases h0 : sys.lookupResults 0 with e0 | item0
    · rcases hf : sys.forgetResults 0 with ef | uf
      · simp [create_plugin, h0, hf, countLookups, countReads, countProbes, countForgets]
      · rcases h1 : sys.lookupResults 1 with e1 | item1
        · simp [create_plugin, h0, hf, h1,
            countLookups, countReads, countProbes, countForgets]
        · obtain ⟨HL, HR, HP, HF⟩ := createWithItem_counts sys ref item1 2 1
          simp only [create_plugin, h0, hf, h1,
            countLookups, countReads, countProbes, countForgets]
          omega
    · obtain ⟨HL, HR, HP, HF⟩ := createWithItem_counts sys ref item0 1 0
      simp only [create_plugin, h0,
        countLookups, countReads, countProbes, countForgets]
      omega
  · intro e1 e2 h0 hf h1
    simp [create_plugin, h0, hf, h1, countLookups]
  · intro item e1 item2 e2 hk h0 hr0 hf h1 hr1
    simp [create_plugin, createWithItem, hk, h0, hr0, hf, h1, hr1, countReads]

/-- Witness for C1: with a permanently failing cache, `create_plugin`
surfaces the second lookup error after exactly two lookup attempts. -/
theorem create_plugin_single_retry_bound_witness :
    (create_plugin sysLookupFail refWasm).1 = Except.error "cache corrupt" ∧
      countLookups (create_plugin sysLookupFail refWasm).2 = 2 :=
  (create_plugin_single_retry_bound sysLookupFail refWasm).2.1
    "cache corrupt" "cache corrupt" rfl rfl rfl

/-- Claim C2, counterexample: on an Unresolvable reference `create_plugin`
does perform a Cache Store lookup before returning the unresolvable
error, refuting the claim that no lookup_or_populate occurs. -/
theorem create_plugin_unresolvable_lookup_cex :
    countLookups (create_plugin sysHappy refNone).2 = 1 := rfl

/-- Claim C2, amended: on an Unresolvable reference `create_plugin`
performs no filesystem read and no existence probe and always returns an
error; the stage-1 cache lookup does happen first, and as soon as it
succeeds the unresolvable error is returned with exactly that one lookup
as the whole trace. -/
theorem create_plugin_unresolvable_amended (sys : SysState)
    (ref : PluginSourceReference) (hk : ref.plugin_kind = none) :
    countReads (create_plugin sys ref).2 = 0 ∧
    countProbes (create_plugin sys ref).2 = 0 ∧
    (∃ e, (create_plugin sys ref).1 = Except.error e) ∧
    (∀ item, sys.lookupResults 0 = Except.ok item →
      create_plugin sys ref =
        (Except.error (unresolvable_message ref.display), [Event.lookup])) := by
  rcases h0 : sys.lookupResults 0 with e0 | item0
  · rcases hf : sys.forgetResults 0 with ef | uf
    · simp [create_plugin, h0, hf, countReads, countProbes]
    · rcases h1 : sys.lookupResults 1 with e1 | item1
      · simp [create_plugin, h0, hf, h1, countReads, countProbes]
      · simp [create_plugin, createWithItem, h0, hf, h1, hk, countReads, countProbes]
  · simp [create_plugin, createWithItem, h0, hk, countReads, countProbes]

/-- Witness for the amended C2 at a concrete healthy oracle. -/
theorem create_plugin_unresolvable_amended_witness :
    countReads (create_plugin sysHappy refNone).2 = 0 ∧
    countProbes (create_plugin sysHappy refNone).2 = 0 ∧
    (∃ e, (create_plugin sysHappy refNone).1 = Except.error e) ∧
    (∀ item, sysHappy.lookupResults 0 = Except.ok item →
      create_plugin sysHappy refNone =
        (Except.error (unresolvable_message refNone.display), [Event.lookup])) :=
  create_plugin_unresolvable_amended sysHappy refNone rfl

/-- Claim C3, counterexample: on an Unresolvable reference with a
permanently failing cache, `create_plugin` surfaces the cache error,
which is not the locator-identifying unresolvable message. -/
theorem unresolvable_error_message_cex :
    (create_plugin sysLookupFail refNone).1 = Except.error "cache corrupt" ∧
      "cache corrupt" ≠ unresolvable_message refNone.display := by
  refine ⟨rfl, ?_⟩
  decide

/-- Claim C3, amended: `setup_plugin`, `get_file_path_from_plugin_info`
and `cleanup_plugin` fail immediately on an Unresolvable reference with
the error message identifying the unresolved locator, touching nothing;
`create_plugin` returns that same message, with no operation beyond the
single stage-1 lookup, provided the stage-1 lookup succeeds.  No
operation ever retries the classification. -/
theorem unresolvable_error_message_amended (sys : SysState) (ps : PathSource)
    (ref : PluginSourceReference) (info : PluginInfo) (bytes : List Nat)
    (fs : List String) (hps : ps.plugin_kind = none) (hk : ref.plugin_kind = none) :
    setup_plugin sys ps bytes = Except.error (unresolvable_message ps.display) ∧
    get_file_path_from_plugin_info sys ps info =
      Except.error (unresolvable_message ps.display) ∧
    cleanup_plugin sys fs ps info =
      (Except.error (unresolvable_message ps.display), fs) ∧
    (∀ item, sys.lookupResults 0 = Except.ok item →
      create_plugin sys ref =
        (Except.error (unresolvable_message ref.display), [Event.lookup])) := by
  refine ⟨?_, ?_, ?_, ?_⟩
  · simp [setup_plugin, hps]
  · simp [get_file_path_from_plugin_info, hps]
  · simp [cleanup_plugin, hps]
  · intro item h0
    simp [create_plugin, createWithItem, h0, hk]

/-- Witness for the amended C3 at concrete inputs. -/
theorem unresolvable_error_message_amended_witness :
    setup_plugin sysHappy refNone.path_source [1, 2] =
      Except.error (unresolvable_message refNone.path_source.display) ∧
    get_file_path_from_plugin_info sysHappy refNone.path_source infoA =
      Except.error (unresolvable_message refNone.path_source.display) ∧
    cleanup_plugin sysHappy ["cache/plugin.wasm"] refNone.path_source infoA =
      (Except.error (unresolvable_message refNone.path_source.display),
        ["cache/plugin.wasm"]) ∧
    (∀ item, sysHappy.lookupResults 0 = Except.ok item →
      create_plugin sysHappy refNone =
        (Except.error (unresolvable_message refNone.display), [Event.lookup])) :=
  unresolvable_error_message_amended sysHappy refNone.path_source refNone infoA
    [1, 2] ["cache/plugin.wasm"] rfl rfl

/-- Claim C4: on the native path `create_plugin` never performs a second
existence probe — in particular after a failed probe, a successful forget
and repopulation, the instance is built from the repopulated item with
the trace still holding exactly one probe — whereas on the sandboxed path
a failed read followed by successful forget and repopulation is
re-validated by a second byte read. -/
theorem create_plugin_native_trusts_repopulated (sys : SysState)
    (ref : PluginSourceReference) :
    (ref.plugin_kind = some PluginKind.Process →
      countProbes (create_plugin sys ref).2 ≤ 1) ∧
    (∀ item item2, ref.plugin_kind = some PluginKind.Process →
      sys.lookupResults 0 = Except.ok item →
      sys.probeResults 0 = false →
      sys.forgetResults 0 = Except.ok () →
      sys.lookupResults 1 = Except.ok item2 →
      countProbes (create_plugin sys ref).2 = 1 ∧
        (create_plugin sys ref).1 =
          Except.ok (Plugin.Process
            (sys.test_safe_executable_path item2.file_path) item2.info)) ∧
    (∀ item e item2, ref.plugin_kind = some PluginKind.Wasm →
      sys.lookupResults 0 = Except.ok item →
      sys.readResults 0 = Except.error e →
      sys.forgetResults 0 = Except.ok () →
      sys.lookupResults 1 = Except.ok item2 →
      countReads (create_plugin sys ref).2 = 2) := by
  refine ⟨?_, ?_, ?_⟩
  · intro _
    rcases h0 : sys.lookupResults 0 with e0 | item0
    · rcases hf : sys.forgetResults 0 with ef | uf
      · simp [create_plugin, h0, hf, countProbes]
      · rcases h1 : sys.lookupResults 1 with e1 | item1
        · simp [create_plugin, h0, hf, h1, countProbes]
        · obtain ⟨_, _, HP, _⟩ := createWithItem_counts sys ref item1 2 1
          simp only [create_plugin, h0, hf, h1, countProbes]
          omega
    · obtain ⟨_, _, HP, _⟩ := createWithItem_counts sys ref item0 1 0
      simp only [create_plugin, h0, countProbes]
      omega
  · intro item item2 hk h0 hp hf h1
    simp [create_plugin, createWithItem, hk, h0, hp, hf, h1, countProbes]
  · intro item e item2 hk h0 hr0 hf h1
    rcases hr1 : sys.readResults 1 with e1 | b1 <;>
      simp [create_plugin, createWithItem, hk, h0, hr0, hf, h1, hr1, countReads]

/-- Witness for C4: concrete native reference whose artifact is missing;
the repopulated item is used without a second probe. -/
theorem create_plugin_native_trusts_repopulated_witness :
    countProbes (create_plugin sysProbeFail refProc).2 = 1 ∧
      (create_plugin sysProbeFail refProc).1 =
        Except.ok (Plugin.Process
          (sysProbeFail.test_safe_executable_path itemA.file_path) itemA.info) :=
  (create_plugin_native_trusts_repopulated sysProbeFail refProc).2.1
    itemA itemA rfl rfl rfl rfl rfl

/-- Stage-2 helper for variant fidelity: a successful stage 2 yields the
variant matching the kind of the reference. -/
lemma createWithItem_variant (sys : SysState) (ref : PluginSourceReference)
    (item : PluginCacheItem) (nL nF : Nat) (p : Plugin) (tr : List Event)
    (h : createWithItem sys ref item nL nF = (Except.ok p, tr)) :
    (ref.plugin_kind = some PluginKind.Wasm → ∃ b i, p = Plugin.Wasm b i) ∧
    (ref.plugin_kind = some PluginKind.Process → ∃ q i, p = Plugin.Process q i) := by
  unfold createWithItem mkWasmPlugin at h
  repeat' split at h
  all_goals simp_all
  all_goals exact ⟨_, _, h.1.symm⟩

/-- Claim C5: whenever `create_plugin` succeeds, the variant of the
returned instance matches the kind of the reference: a sandboxed kind
yields a sandboxed (wasm) instance, a native kind a native (process)
instance, never the other. -/
theorem create_plugin_variant_fidelity (sys : SysState)
    (ref : PluginSourceReference) (p : Plugin) (tr : List Event)
    (h : create_plugin sys ref = (Except.ok p, tr)) :
    (ref.plugin_kind = some PluginKind.Wasm → ∃ b i, p = Plugin.Wasm b i) ∧
    (ref.plugin_kind = some PluginKind.Process → ∃ q i, p = Plugin.Process q i) := by
  rcases h0 : sys.lookupResults 0 with e0 | item0
  · rcases hf : sys.forgetResults 0 with ef | uf
    · simp [create_plugin, h0, hf] at h
    · rcases h1 : sys.lookupResults 1 with e1 | item1
      · simp [create_plugin, h0, hf, h1] at h
      · simp only [create_plugin, h0, hf, h1] at h
        have hfst : (createWithItem sys ref item1 2 1).1 = Except.ok p :=
          congrArg Prod.fst h
        exact createWithItem_variant sys ref item1 2 1 p
          (createWithItem sys ref item1 2 1).2 (Prod.ext hfst rfl)
  · simp only [create_plugin, h0] at h
    have hfst : (createWithItem sys ref item0 1 0).1 = Except.ok p :=
      congrArg Prod.fst h
    exact createWithItem_variant sys ref item0 1 0 p
      (createWithItem sys ref item0 1 0).2 (Prod.ext hfst rfl)

/-- Witness for C5: the healthy sandboxed resolution returns the
sandboxed variant. -/
theorem create_plugin_variant_fidelity_witness :
    ∃ b i, Plugin.Wasm [0, 97, 115, 109] infoA = Plugin.Wasm b i :=
  (create_plugin_variant_fidelity sysHappy refWasm
      (Plugin.Wasm [0, 97, 115, 109] infoA)
      [Event.lookup, Event.readBytes "cache/plugin.wasm", Event.wasmNew] rfl).1 rfl

/-- Claim C6: for a reference of resolvable kind, the path lookup always
returns Ok.  The operation is a pure Lean function over the reference and
metadata, so determinism and absence of any Cache Store or filesystem
effect hold by construction of the embedding. -/
theorem get_file_path_resolvable_ok (sys : SysState) (ps : PathSource)
    (info : PluginInfo) (k : PluginKind) (hk : ps.plugin_kind = some k) :
    ∃ p, get_file_path_from_plugin_info sys ps info = Except.ok p := by
  cases k <;> simp [get_file_path_from_plugin_info, hk]

/-- Witness for C6 at a concrete sandboxed reference. -/
theorem get_file_path_resolvable_ok_witness :
    ∃ p, get_file_path_from_plugin_info sysHappy refWasm.path_source infoA =
      Except.ok p :=
  get_file_path_resolvable_ok sysHappy refWasm.path_source infoA PluginKind.Wasm rfl

lemma delete_artifact_idem (fs : List String) (path : String) :
    delete_artifact (delete_artifact fs path).2 path = delete_artifact fs path := by
  simp [delete_artifact, List.filter_filter]

/-- Claim C7: for a reference of resolvable kind, running cleanup twice
in succession never fails on the second call, and the second call leaves
the filesystem unchanged: deleting an already-absent artifact is not an
error. -/
theorem cleanup_plugin_idempotent (sys : SysState) (fs : List String)
    (ps : PathSource) (info : PluginInfo) (k : PluginKind)
    (hk : ps.plugin_kind = some k) :
    (cleanup_plugin sys (cleanup_plugin sys fs ps info).2 ps info).1 =
      Except.ok () ∧
    (cleanup_plugin sys (cleanup_plugin sys fs ps info).2 ps info).2 =
      (cleanup_plugin sys fs ps info).2 := by
  cases k <;>
    simp [cleanup_plugin, hk, delete_artifact_idem, delete_artifact]

/-- Witness for C7 at a concrete filesystem holding the artifact. -/
theorem cleanup_plugin_idempotent_witness :
    (cleanup_plugin sysHappy
        (cleanup_plugin sysHappy ["cache/test-plugin.wasm", "other"]
          refWasm.path_source infoA).2 refWasm.path_source infoA).1 =
      Except.ok () ∧
    (cleanup_plugin sysHappy
        (cleanup_plugin sysHappy ["cache/test-plugin.wasm", "other"]
          refWasm.path_source infoA).2 refWasm.path_source infoA).2 =
      (cleanup_plugin sysHappy ["cache/test-plugin.wasm", "other"]
        refWasm.path_source infoA).2 :=
  cleanup_plugin_idempotent sysHappy ["cache/test-plugin.wasm", "other"]
    refWasm.path_source infoA PluginKind.Wasm rfl

/-- Claim C8: self-healing.  If the artifact backing a valid cache entry
has been lost (first read fails, or the existence probe fails), and the
forget and repopulation succeed with the cache converging to the same
item, `create_plugin` succeeds after exactly one forget-and-repopulate
cycle and returns the same instance a fresh resolution of the reference
would return. -/
theorem create_plugin_self_healing (sys : SysState)
    (ref : PluginSourceReference) :
    (∀ item e b, ref.plugin_kind = some PluginKind.Wasm →
      sys.lookupResults 0 = Except.ok item →
      sys.readResults 0 = Except.error e →
      sys.forgetResults 0 = Except.ok () →
      sys.lookupResults 1 = Except.ok item →
      sys.readResults 1 = Except.ok b →
      countForgets (create_plugin sys ref).2 = 1 ∧
        (create_plugin sys ref).1 =
          (create_plugin
            { sys with lookupResults := fun _ => Except.ok item,
                       readResults := fun _ => Except.ok b } ref).1) ∧
    (∀ item, ref.plugin_kind = some PluginKind.Process →
      sys.lookupResults 0 = Except.ok item →
      sys.probeResults 0 = false →
      sys.forgetResults 0 = Except.ok () →
      sys.lookupResults 1 = Except.ok item →
      countForgets (create_plugin sys ref).2 = 1 ∧
        (create_plugin sys ref).1 =
          (create_plugin
            { sys with lookupResults := fun _ => Except.ok item,
                       probeResults := fun _ => true } ref).1) := by
  constructor
  · intro item e b hk h0 hr0 hf h1 hr1
    simp [create_plugin, createWithItem, hk, h0, hr0, hf, h1, hr1, countForgets,
      mkWasmPlugin]
  · intro item hk h0 hp hf h1
    simp [create_plugin, createWithItem, hk, h0, hp, hf, h1, countForgets]

/-- Witness for C8: a sandboxed artifact deleted out-of-band; the first
read fails, the retry succeeds, and the result equals a fresh
resolution. -/
theorem create_plugin_self_healing_witness :
    countForgets (create_plugin sysWasmHeal refWasm).2 = 1 ∧
      (create_plugin sysWasmHeal refWasm).1 =
        (create_plugin
          { sysWasmHeal with lookupResults := fun _ => Except.ok itemA,
                             readResults := fun _ => Except.ok [0, 97] } refWasm).1 :=
  (create_plugin_self_healing sysWasmHeal refWasm).1 itemA "file not found" [0, 97]
    rfl rfl rfl rfl rfl rfl

/-- Claim C10: when `forget` itself fails inside any retry branch,
`create_plugin` returns exactly that forget error, and the trace stops at
the forget: no second lookup, no backend construction, no further
retry. -/
theorem create_plugin_forget_failure_propagates (sys : SysState)
    (ref : PluginSourceReference) :
    (∀ e f, sys.lookupResults 0 = Except.error e →
      sys.forgetResults 0 = Except.error f →
      create_plugin sys ref =
        (Except.error f,
         [Event.lookup, Event.logVerbose (cache_retry_message e), Event.forget])) ∧
    (∀ item e f, ref.plugin_kind = some PluginKind.Wasm →
      sys.lookupResults 0 = Except.ok item →
      sys.readResults 0 = Except.error e →
      sys.forgetResults 0 = Except.error f →
      create_plugin sys ref =
        (Except.error f,
         [Event.lookup, Event.readBytes item.file_path,
          Event.logVerbose (read_retry_message e), Event.forget])) ∧
    (∀ item f, ref.plugin_kind = some PluginKind.Process →
      sys.lookupResults 0 = Except.ok item →
      sys.probeResults 0 = false →
      sys.forgetResults 0 = Except.error f →
      create_plugin sys ref =
        (Except.error f,
         [Event.lookup, Event.pathProbe item.file_path,
          Event.logVerbose (probe_retry_message item.file_path), Event.forget])) := by
  refine ⟨?_, ?_, ?_⟩
  · intro e f h0 hf
    simp [create_plugin, h0, hf]
  · intro item e f hk h0 hr0 hf
    simp [create_plugin, createWithItem, hk, h0, hr0, hf]
  · intro item f hk h0 hp hf
    simp [create_plugin, createWithItem, hk, h0, hp, hf]

/-- Witness for C10: the cache lookup fails and the subsequent forget
also fails; the forget error surfaces with nothing after it. -/
theorem create_plugin_forget_failure_propagates_witness :
    create_plugin sysForgetFail refWasm =
      (Except.error "forget failed",
       [Event.lookup, Event.logVerbose (cache_retry_message "cache corrupt"),
        Event.forget]) :=
  (create_plugin_forget_failure_propagates sysForgetFail refWasm).1
    "cache corrupt" "forget failed" rfl rfl

end Dprint
